import Mathlib

/-!
Shallow embedding of the prompt-template web application (`src/main.py`).

The application stores `PromptTemplate` records in a document store and
exposes CRUD handlers plus two JSON endpoints (search, render).  Strings are
modelled by Lean `String`, the store by an association list from integer ids
to records, timestamps by `Nat`, and the form / JSON payloads by association
lists of strings.  Literal brace characters are written with `\x7b` / `\x7d`
escapes throughout.
-/

set_option autoImplicit false

namespace PromptApp

/-- Word character in the sense of Python's `re` module `\w` class, restricted
to ASCII (the application only ever uses ASCII identifiers): a letter, a
digit, or an underscore. -/
def isWordChar (c : Char) : Bool := c.isAlphanum || c == '_'

/-- One attempted match of the regular expression `\{\{(\w+)\}\}` at the head
of the character list: succeeds exactly when the list starts with two braces,
followed by a non-empty maximal run of word characters, followed by two
closing braces, and returns the captured run.  This is the per-position step
of `re.findall(r'\{\{(\w+)\}\}', text)` from `src/main.py` lines 48 and 74. -/
def matchAt : List Char → Option (List Char)
  | c1 :: c2 :: r =>
    if c1 = '\x7b' ∧ c2 = '\x7b' then
      let w := r.takeWhile isWordChar
      let rest := r.dropWhile isWordChar
      if w ≠ [] ∧ rest.take 2 = ['\x7d', '\x7d'] then some w else none
    else none
  | _ => none

/-- All matches of `\{\{(\w+)\}\}` in left-to-right order, embedding
`re.findall`.  Two matches of this pattern can never overlap (a match's
interior contains no two consecutive `\x7b` characters), so enumerating a
match attempt at every position coincides with Python's non-overlapping
left-to-right scan. -/
def findall : List Char → List (List Char)
  | [] => []
  | c :: rest =>
    match matchAt (c :: rest) with
    | some w => w :: findall rest
    | none => findall rest

/-- The Variable Extractor of the application: `re.findall(r'\{\{(\w+)\}\}',
template_text)` on a template body (`src/main.py` lines 46-48 and 72-74). -/
def extractVariables (body : String) : List String :=
  (findall body.toList).map (fun w => String.mk w)

/-- Declarative description of "the body contains at least one placeholder":
some substring of the body is `\x7b\x7b` + a non-empty run of word
characters + `\x7d\x7d`.  This is the spec-side notion used to compare the
extractor against the specification's wording. -/
def HasPlaceholder (s : String) : Prop :=
  ∃ pre w post, s.toList = pre ++ '\x7b' :: '\x7b' :: (w ++ '\x7d' :: '\x7d' :: post)
    ∧ w ≠ [] ∧ w.all isWordChar = true

/-- A parsed template token: literal text (one character) or a substitution
hole `\x7b\x7b name \x7d\x7d`. -/
inductive Tok where
  | text (c : Char)
  | hole (n : String)
deriving DecidableEq

/-- Embedding of the parse step of `jinja2.Template(template.template)`
(`src/main.py` line 139) for the fragment of Jinja2 the application uses:
literal text and `\x7b\x7b identifier \x7d\x7d` print statements, with
optional whitespace around the identifier.  Anything else after an opening
`\x7b\x7b` raises `TemplateSyntaxError`, as Jinja2 does (for instance an
unterminated `\x7b\x7b`, an empty expression, or a non-identifier
expression).  The fuel argument is called with `length + 1` and is never
exhausted. -/
def tokenize : Nat → List Char → Except String (List Tok)
  | 0, _ => Except.error "recursion limit exceeded"
  | _ + 1, [] => Except.ok []
  | fuel + 1, c :: rest =>
    if c = '\x7b' ∧ rest.head? = some '\x7b' then
      let r1 := rest.tail.dropWhile Char.isWhitespace
      let w := r1.takeWhile isWordChar
      let r2 := (r1.dropWhile isWordChar).dropWhile Char.isWhitespace
      if w = [] then Except.error "unexpected end of template"
      else
        match r2 with
        | '\x7d' :: '\x7d' :: r3 =>
          (tokenize fuel r3).map (fun ts => Tok.hole (String.mk w) :: ts)
        | _ => Except.error "expected token end of print statement"
    else (tokenize fuel rest).map (fun ts => Tok.text c :: ts)

/-- Dictionary lookup in the render-time variable mapping, modelled as an
association list (first binding wins, as in a Python dict built from JSON). -/
def lookupVar (vars : List (String × String)) (n : String) : String :=
  match vars.find? (fun p => p.fst == n) with
  | some p => p.snd
  | none => ""

/-- Rendering one token: literal text passes through; a hole is replaced by
the mapped value, or by the empty string when the name is absent from the
mapping (Jinja2's default `Undefined` prints as the empty string). -/
def renderTok (vars : List (String × String)) : Tok → String
  | Tok.text c => String.singleton c
  | Tok.hole n => lookupVar vars n

/-- Embedding of `Template(template.template).render(**variables)`
(`src/main.py` lines 139-140): parse, then substitute. -/
def jinjaRender (body : String) (vars : List (String × String)) : Except String String :=
  (tokenize (body.length + 1) body.toList).map
    (fun ts => String.join (ts.map (renderTok vars)))

/-- The template body parses without a `TemplateSyntaxError`.  Rendering
success depends only on this, never on the supplied variable mapping. -/
def templateParses (body : String) : Bool :=
  match tokenize (body.length + 1) body.toList with
  | Except.ok _ => true
  | Except.error _ => false

/-- Python substring test helper: does the first list occur at the head of
the second? -/
def isHeadOf : List Char → List Char → Bool
  | [], _ => true
  | _ :: _, [] => false
  | a :: as, b :: bs => a == b && isHeadOf as bs

/-- Python's `needle in hay` substring containment on character lists. -/
def hasSubstr : List Char → List Char → Bool
  | needle, [] => needle.isEmpty
  | needle, c :: rest => isHeadOf needle (c :: rest) || hasSubstr needle rest

/-- Python `str.lower()`, modelled character-wise (the application only
compares ASCII strings). -/
def lowerStr (s : String) : String := String.mk (s.toList.map Char.toLower)

/-- Python `needle in hay` on strings. -/
def strContains (hay needle : String) : Bool := hasSubstr needle.toList hay.toList

/-- The persisted entity of `src/main.py` lines 11-21.  `template` is the
raw body, `variables` the extractor output stored at last save, timestamps
are abstract `Nat` instants (`created_date` is `auto_now_add`,
`modified_date` is `auto_now`, i.e. refreshed on every put). -/
structure PromptTemplate where
  name : String
  description : String
  template : String
  category : String
  tags : List String
  varNames : List String
  created_date : Nat
  modified_date : Nat
  usage_count : Nat
deriving DecidableEq

/-- The datastore: an association list from entity id to record. -/
abbrev Store := List (Nat × PromptTemplate)

/-- `PromptTemplate.get_by_id(template_id)`. -/
def lookupStore : Store → Nat → Option PromptTemplate
  | [], _ => none
  | e :: es, tid => if e.fst = tid then some e.snd else lookupStore es tid

/-- `template.put()` on an entity that already has id `tid`: replaces the
stored record under that id. -/
def storePut : Store → Nat → PromptTemplate → Store
  | [], _, _ => []
  | e :: es, tid, t =>
    if e.fst = tid then (tid, t) :: storePut es tid t else e :: storePut es tid t

/-- `template.key.delete()`: removes the record with id `tid`. -/
def storeDelete : Store → Nat → Store
  | [], _ => []
  | e :: es, tid => if e.fst = tid then storeDelete es tid else e :: storeDelete es tid

/-- HTTP-level outcome of a page handler. -/
inductive Response where
  | redirect (target : String)
  | notFound (msg : String)
  | badRequest (msg : String)
  | page (t : PromptTemplate)
deriving DecidableEq

/-- The five form fields read by the create and edit handlers. -/
structure TemplateForm where
  name : String
  description : String
  template : String
  category : String
  tags : String
deriving DecidableEq

/-- `request.form[k]`: the value when the field is present, otherwise the
framework aborts the request with a 400 error (Flask raises
`BadRequestKeyError` on a missing form key). -/
def getField (form : List (String × String)) (k : String) : Except String String :=
  match form.find? (fun p => p.fst == k) with
  | some p => Except.ok p.snd
  | none => Except.error ("400 Bad Request: missing form field " ++ k)

/-- Reading all five form fields, in the access order of the handlers
(`template` is read first, at `src/main.py` lines 47 and 73). -/
def readForm (form : List (String × String)) : Except String TemplateForm := do
  let ttext ← getField form "template"
  let n ← getField form "name"
  let d ← getField form "description"
  let c ← getField form "category"
  let g ← getField form "tags"
  Except.ok { name := n, description := d, template := ttext, category := c, tags := g }

/-- Helper for Python `str.split(',')`: split a character list at every
comma, keeping empty segments; `acc` is the current segment, reversed. -/
def splitCommaAux (acc : List Char) : List Char → List (List Char)
  | [] => [acc.reverse]
  | c :: rest =>
    if c = ',' then acc.reverse :: splitCommaAux [] rest
    else splitCommaAux (c :: acc) rest

/-- `request.form['tags'].split(',') if request.form['tags'] else []`
(`src/main.py` lines 55 and 80): Python `str.split(',')`, which does not
trim whitespace. -/
def parseTags (s : String) : List String :=
  if s ≠ "" then (splitCommaAux [] s.toList).map String.mk else []

/-- The NDB `StringProperty(default="General")` semantics (`src/main.py`
line 16): the default applies only when no value is assigned; an assigned
value, even the empty string, is stored as given. -/
def applyCategoryDefault : Option String → String
  | none => "General"
  | some c => c

/-- POST branch of `/create` (`src/main.py` lines 43-59): read the form,
extract variables from the submitted body, persist a fresh record, redirect
to the listing.  No validation of field contents is performed. -/
def create_template (store : Store) (form : List (String × String)) (now newId : Nat) :
    Response × Store :=
  match readForm form with
  | Except.error e => (Response.badRequest e, store)
  | Except.ok f =>
    let t : PromptTemplate :=
      { name := f.name
        description := f.description
        template := f.template
        category := applyCategoryDefault (some f.category)
        tags := parseTags f.tags
        varNames := extractVariables f.template
        created_date := now
        modified_date := now
        usage_count := 0 }
    (Response.redirect "/", (newId, t) :: store)

/-- POST branch of `/edit/<id>` (`src/main.py` lines 63-83): 404 when the id
is unknown, otherwise overwrite the editable fields, recompute `variables`,
refresh `modified_date` (NDB `auto_now` on put), and redirect to the detail
page.  `created_date` and `usage_count` are not assigned. -/
def edit_template (store : Store) (tid : Nat) (form : List (String × String)) (now : Nat) :
    Response × Store :=
  match lookupStore store tid with
  | none => (Response.notFound "Template not found", store)
  | some t =>
    match readForm form with
    | Except.error e => (Response.badRequest e, store)
    | Except.ok f =>
      let t' := { t with
        name := f.name
        description := f.description
        template := f.template
        category := f.category
        tags := parseTags f.tags
        varNames := extractVariables f.template
        modified_date := now }
      (Response.redirect ("/template/" ++ toString tid), storePut store tid t')

/-- `/template/<id>` (`src/main.py` lines 31-38). -/
def view_template (store : Store) (tid : Nat) : Response :=
  match lookupStore store tid with
  | none => Response.notFound "Template not found"
  | some t => Response.page t

/-- POST `/delete/<id>` (`src/main.py` lines 154-161): delete when present,
silently do nothing otherwise, always redirect to the listing. -/
def delete_template (store : Store) (tid : Nat) : Response × Store :=
  match lookupStore store tid with
  | none => (Response.redirect "/", store)
  | some _ => (Response.redirect "/", storeDelete store tid)

/-- One row of the JSON array returned by `/api/search`. -/
structure SearchResult where
  id : Nat
  name : String
  description : String
  category : String
  tags : List String
  created_date : Nat
deriving DecidableEq

/-- Projection of a stored record to a search summary
(`src/main.py` lines 112-121). -/
def mkSearchResult (tid : Nat) (t : PromptTemplate) : SearchResult :=
  { id := tid, name := t.name, description := t.description, category := t.category,
    tags := t.tags, created_date := t.created_date }

/-- `/api/search` (`src/main.py` lines 87-123): lowercase the query, push an
exact category filter down to the datastore query, then filter in Python by
case-insensitive substring match of the query against name or description
and by tag membership, and project the survivors to summaries. -/
def search_templates (store : Store) (q category tag : String) : List SearchResult :=
  let query := lowerStr q
  let tq := if category ≠ "" then store.filter (fun e => e.snd.category == category) else store
  let filtered := tq.filter (fun e =>
    !(query != "" && !strContains (lowerStr e.snd.name) query
        && !strContains (lowerStr e.snd.description) query)
    && !(tag != "" && !(e.snd.tags.contains tag)))
  filtered.map (fun e => mkSearchResult e.fst e.snd)

/-- Spec-side search predicate, written from the specification's wording:
`q` (when supplied) must be a case-insensitive substring of name or of
description, `category` (when supplied) must match exactly, `tag` (when
supplied) must be an element of the record's tags. -/
def matchesSearch (q category tag : String) (t : PromptTemplate) : Bool :=
  (q == "" || strContains (lowerStr t.name) (lowerStr q)
     || strContains (lowerStr t.description) (lowerStr q))
  && (category == "" || t.category == category)
  && (tag == "" || t.tags.contains tag)

/-- The success payload of `/api/render/<id>` (`src/main.py` lines 146-150). -/
structure RenderOk where
  rendered : String
  template_name : String
  variables_used : List String
deriving DecidableEq

/-- Outcome of `/api/render/<id>`: 200 JSON payload, 404 `{error}` payload,
or 400 `{error}` payload. -/
inductive ApiResult where
  | success (r : RenderOk)
  | notFound (e : String)
  | renderError (e : String)
deriving DecidableEq

/-- POST `/api/render/<id>` (`src/main.py` lines 125-152): 404 when the id is
unknown; otherwise take the JSON body as the variable mapping (`request.json
if request.json else \x7b\x7d`, so a missing body is the empty mapping),
render with Jinja2, and on success increment `usage_count`, put the record
(which also refreshes `modified_date`, NDB `auto_now`), and answer with
`rendered`, `template_name` and `variables_used = list(variables.keys())`.
On a rendering exception answer a 400 `{error}` payload without putting. -/
def render_template_api (store : Store) (tid : Nat)
    (reqJson : Option (List (String × String))) (now : Nat) : ApiResult × Store :=
  match lookupStore store tid with
  | none => (ApiResult.notFound "Template not found", store)
  | some t =>
    let vars := reqJson.getD []
    match jinjaRender t.template vars with
    | Except.error e =>
      (ApiResult.renderError ("Template rendering error: " ++ e), store)
    | Except.ok rendered =>
      let t' := { t with usage_count := t.usage_count + 1, modified_date := now }
      (ApiResult.success
        { rendered := rendered
          template_name := t.name
          variables_used := vars.map Prod.fst }, storePut store tid t')

/-- Concrete fixture: the Greeting template of the specification's
end-to-end scenario, with a non-zero prior usage count. -/
def tGreet : PromptTemplate :=
  { name := "Greeting"
    description := ""
    template := "Hi \x7b\x7buser\x7d\x7d!"
    category := "General"
    tags := []
    varNames := ["user"]
    created_date := 1
    modified_date := 1
    usage_count := 4 }

/-- Concrete fixture: a template whose body references `name` but also ends
in an unterminated `\x7b\x7b`, which is a Jinja2 `TemplateSyntaxError`. -/
def tBad : PromptTemplate :=
  { name := "Broken"
    description := ""
    template := "Hello \x7b\x7bname\x7d\x7d \x7b\x7b"
    category := "General"
    tags := []
    varNames := ["name"]
    created_date := 1
    modified_date := 1
    usage_count := 2 }

/-- The create form of the specification's end-to-end scenario. -/
def greetingForm : List (String × String) :=
  [("name", "Greeting"), ("description", ""), ("template", "Hi \x7b\x7buser\x7d\x7d!"),
   ("category", "General"), ("tags", "")]

/-- An edit form used by the C4 witness. -/
def editForm : List (String × String) :=
  [("template", "Bye \x7b\x7bwho\x7d\x7d"), ("name", "Farewell"), ("description", "d"),
   ("category", "Misc"), ("tags", "x, y")]

/-- A create form whose name and body are both empty strings. -/
def emptyNameForm : List (String × String) :=
  [("template", ""), ("name", ""), ("description", ""), ("category", "General"), ("tags", "")]

/-- A create form with no `name` field at all. -/
def missingNameForm : List (String × String) :=
  [("template", "x"), ("description", ""), ("category", ""), ("tags", "")]

/-- A create form whose category field is present but empty. -/
def emptyCategoryForm : List (String × String) :=
  [("template", "t"), ("name", "N"), ("description", ""), ("category", ""), ("tags", "")]

/-- Concrete fixture of the specification's search scenario. -/
def tWelcome : PromptTemplate :=
  { name := "Welcome Email"
    description := ""
    template := ""
    category := "Marketing"
    tags := ["onboarding"]
    varNames := []
    created_date := 1
    modified_date := 1
    usage_count := 0 }

/-- Concrete fixture of the specification's search scenario. -/
def tAlert : PromptTemplate :=
  { name := "Error Alert"
    description := ""
    template := ""
    category := "Ops"
    tags := ["alert"]
    varNames := []
    created_date := 2
    modified_date := 2
    usage_count := 0 }

/-- The two-record store of the search scenario. -/
def demoStore : Store := [(1, tWelcome), (2, tAlert)]

theorem takeWhile_append_of_all {p : Char → Bool} (w : List Char) (c : Char) (r : List Char)
    (hw : w.all p = true) (hc : p c = false) :
    (w ++ c :: r).takeWhile p = w := by
  induction w with
  | nil => simp [List.takeWhile_cons, hc]
  | cons a as ih =>
    simp only [List.all_cons, Bool.and_eq_true] at hw
    simp [List.takeWhile_cons, hw.1, ih hw.2]

theorem dropWhile_append_of_all {p : Char → Bool} (w : List Char) (c : Char) (r : List Char)
    (hw : w.all p = true) (hc : p c = false) :
    (w ++ c :: r).dropWhile p = c :: r := by
  induction w with
  | nil => simp [List.dropWhile_cons, hc]
  | cons a as ih =>
    simp only [List.all_cons, Bool.and_eq_true] at hw
    simp [List.dropWhile_cons, hw.1, ih hw.2]

theorem isWordChar_brace_close : isWordChar '\x7d' = false := by decide

theorem eq_cons_cons_of_take_two {l : List Char} {a b : Char} (h : l.take 2 = [a, b]) :
    ∃ t, l = a :: b :: t := by
  rcases l with _ | ⟨x, _ | ⟨y, t⟩⟩
  · simp at h
  · simp at h
  · simp only [List.take, List.cons.injEq] at h
    obtain ⟨rfl, rfl, -⟩ := h
    exact ⟨t, rfl⟩

theorem matchAt_head_placeholder (w : List Char) (post : List Char)
    (hw : w ≠ []) (hall : w.all isWordChar = true) :
    matchAt ('\x7b' :: '\x7b' :: (w ++ '\x7d' :: '\x7d' :: post)) = some w := by
  have ht := takeWhile_append_of_all (p := isWordChar) w '\x7d' ('\x7d' :: post) hall
    isWordChar_brace_close
  have hd := dropWhile_append_of_all (p := isWordChar) w '\x7d' ('\x7d' :: post) hall
    isWordChar_brace_close
  simp [matchAt, ht, hd, hw]

theorem matchAt_inv {c : Char} {rest : List Char} {w : List Char}
    (hm : matchAt (c :: rest) = some w) :
    ∃ post, c :: rest = '\x7b' :: '\x7b' :: (w ++ '\x7d' :: '\x7d' :: post)
      ∧ w ≠ [] ∧ w.all isWordChar = true := by
  rcases rest with _ | ⟨c2, r⟩
  · simp [matchAt] at hm
  · by_cases hbr : c = '\x7b' ∧ c2 = '\x7b'
    · by_cases hcond : r.takeWhile isWordChar ≠ []
        ∧ (r.dropWhile isWordChar).take 2 = ['\x7d', '\x7d']
      · have hw : r.takeWhile isWordChar = w := by
          simp [matchAt, hbr.1, hbr.2, hcond.1, hcond.2] at hm
          exact hm
        obtain ⟨post, hpost⟩ := eq_cons_cons_of_take_two hcond.2
        obtain ⟨rfl, rfl⟩ := hbr
        have hsplit : r.takeWhile isWordChar ++ r.dropWhile isWordChar = r :=
          List.takeWhile_append_dropWhile isWordChar r
        rw [hpost, hw] at hsplit
        refine ⟨post, by rw [← hsplit], ?_, ?_⟩
        · rw [← hw]; exact hcond.1
        · rw [← hw]; exact List.all_takeWhile
      · rw [not_and_or] at hcond
        rcases hcond with hne | hne
        · have hne' : r.takeWhile isWordChar = [] := not_not.mp hne
          simp [matchAt, hbr.1, hbr.2, hne'] at hm
        · simp [matchAt, hbr.1, hbr.2, hne] at hm
    · simp [matchAt, hbr] at hm

theorem findall_ne_nil_of_placeholder (pre w post : List Char)
    (hw : w ≠ []) (hall : w.all isWordChar = true) :
    findall (pre ++ '\x7b' :: '\x7b' :: (w ++ '\x7d' :: '\x7d' :: post)) ≠ [] := by
  induction pre with
  | nil =>
    rw [List.nil_append]
    rw [findall, matchAt_head_placeholder w post hw hall]
    simp
  | cons c cs ih =>
    rw [List.cons_append, findall]
    cases hm : matchAt (c :: (cs ++ '\x7b' :: '\x7b' :: (w ++ '\x7d' :: '\x7d' :: post))) with
    | some w2 => simp
    | none => simpa using ih

theorem placeholder_of_findall_ne_nil (s : List Char) (h : findall s ≠ []) :
    ∃ pre w post, s = pre ++ '\x7b' :: '\x7b' :: (w ++ '\x7d' :: '\x7d' :: post)
      ∧ w ≠ [] ∧ w.all isWordChar = true := by
  induction s with
  | nil => simp [findall] at h
  | cons c rest ih =>
    cases hm : matchAt (c :: rest) with
    | none =>
      have h2 : findall rest ≠ [] := by
        rw [findall, hm] at h
        exact h
      obtain ⟨pre, w, post, heq, hw, hall⟩ := ih h2
      exact ⟨c :: pre, w, post, by simp [heq], hw, hall⟩
    | some w =>
      obtain ⟨post, heq, hw, hall⟩ := matchAt_inv hm
      exact ⟨[], w, post, by simpa using heq, hw, hall⟩

/-- C1: the Variable Extractor returns exactly the identifiers appearing in
`\x7b\x7bidentifier\x7d\x7d` placeholders, in order of occurrence: the
example body yields `["name", "order_id"]`, a group containing punctuation
or spaces is not extracted, a body with no placeholder yields `[]`
(characterized in both directions against the declarative `HasPlaceholder`
predicate), and the extractor is a total function, hence pure, deterministic
and never-failing. -/
theorem extractor_spec :
    extractVariables "Hello \x7b\x7bname\x7d\x7d, your \x7b\x7border_id\x7d\x7d shipped"
        = ["name", "order_id"]
    ∧ extractVariables "\x7b\x7b not_an_identifier! \x7d\x7d" = []
    ∧ extractVariables "no placeholders" = []
    ∧ (∀ s : String, ¬ HasPlaceholder s → extractVariables s = [])
    ∧ (∀ s : String, HasPlaceholder s → extractVariables s ≠ []) := by
  refine ⟨by decide, by decide, by decide, ?_, ?_⟩
  · intro s h
    by_contra hne
    apply h
    have hf : findall s.toList ≠ [] := by
      intro hz
      apply hne
      unfold extractVariables
      rw [hz]
      rfl
    obtain ⟨pre, w, post, heq, hw, hall⟩ := placeholder_of_findall_ne_nil _ hf
    exact ⟨pre, w, post, heq, hw, hall⟩
  · rintro s ⟨pre, w, post, heq, hw, hall⟩ hc
    have hz : findall s.toList = [] := by
      simpa [extractVariables] using hc
    rw [heq] at hz
    exact findall_ne_nil_of_placeholder pre w post hw hall hz

/-- Witness for C1: a body with a placeholder on which the extractor is
non-empty, instantiating the universally quantified part of the theorem. -/
theorem extractor_spec_witness :
    HasPlaceholder "\x7b\x7ba\x7d\x7d" ∧ extractVariables "\x7b\x7ba\x7d\x7d" ≠ [] :=
  ⟨⟨[], ['a'], [], by decide, by decide, by decide⟩,
   extractor_spec.2.2.2.2 "\x7b\x7ba\x7d\x7d" ⟨[], ['a'], [], by decide, by decide, by decide⟩⟩

theorem lookupStore_storePut_self (store : Store) (tid : Nat) (t t' : PromptTemplate)
    (h : lookupStore store tid = some t) :
    lookupStore (storePut store tid t') tid = some t' := by
  induction store with
  | nil => simp [lookupStore] at h
  | cons e es ih =>
    by_cases hk : e.fst = tid
    · simp [storePut, lookupStore, hk]
    · simp only [lookupStore, hk, if_false] at h
      simpa [storePut, lookupStore, hk] using ih h

theorem lookupStore_storeDelete_self (store : Store) (tid : Nat) :
    lookupStore (storeDelete store tid) tid = none := by
  induction store with
  | nil => rfl
  | cons e es ih =>
    by_cases hk : e.fst = tid
    · simpa [storeDelete, hk] using ih
    · simpa [storeDelete, lookupStore, hk] using ih

theorem render_ok_state (store : Store) (tid : Nat)
    (reqJson : Option (List (String × String))) (now : Nat) (t : PromptTemplate) (s : String)
    (h : lookupStore store tid = some t)
    (hs : jinjaRender t.template (reqJson.getD []) = Except.ok s) :
    (render_template_api store tid reqJson now).fst
        = ApiResult.success
            { rendered := s
              template_name := t.name
              variables_used := (reqJson.getD []).map Prod.fst }
    ∧ (render_template_api store tid reqJson now).snd
        = storePut store tid { t with usage_count := t.usage_count + 1, modified_date := now } := by
  constructor <;> simp [render_template_api, h, hs]

theorem render_err_state (store : Store) (tid : Nat)
    (reqJson : Option (List (String × String))) (now : Nat) (t : PromptTemplate) (e : String)
    (h : lookupStore store tid = some t)
    (he : jinjaRender t.template (reqJson.getD []) = Except.error e) :
    render_template_api store tid reqJson now
      = (ApiResult.renderError ("Template rendering error: " ++ e), store) := by
  simp [render_template_api, h, he]

theorem jinjaRender_ok_of_parses (body : String) (vars : List (String × String))
    (hp : templateParses body = true) : ∃ s, jinjaRender body vars = Except.ok s := by
  unfold templateParses at hp
  unfold jinjaRender
  cases htk : tokenize (body.length + 1) body.toList with
  | error e => rw [htk] at hp; simp at hp
  | ok ts => exact ⟨String.join (ts.map (renderTok vars)), rfl⟩

/-- C2: for an existing template, a successful render increments its
`usage_count` by exactly 1 (two successful renders increment by exactly 2,
third conjunct), and a failed render answers the 400 `\x7berror\x7d` payload
and leaves the store, hence the record, unchanged. -/
theorem render_usage_count (store : Store) (tid : Nat)
    (reqJson : Option (List (String × String))) (now : Nat) (t : PromptTemplate)
    (h : lookupStore store tid = some t) :
    (∀ s, jinjaRender t.template (reqJson.getD []) = Except.ok s →
      lookupStore (render_template_api store tid reqJson now).snd tid
          = some { t with usage_count := t.usage_count + 1, modified_date := now })
    ∧ (∀ e, jinjaRender t.template (reqJson.getD []) = Except.error e →
      (render_template_api store tid reqJson now).fst
          = ApiResult.renderError ("Template rendering error: " ++ e)
      ∧ (render_template_api store tid reqJson now).snd = store)
    ∧ (∀ s now2, jinjaRender t.template (reqJson.getD []) = Except.ok s →
      lookupStore (render_template_api
          (render_template_api store tid reqJson now).snd tid reqJson now2).snd tid
        = some { t with usage_count := t.usage_count + 2, modified_date := now2 }) := by
  refine ⟨?_, ?_, ?_⟩
  · intro s hs
    rw [(render_ok_state store tid reqJson now t s h hs).2]
    exact lookupStore_storePut_self store tid t _ h
  · intro e he
    rw [render_err_state store tid reqJson now t e h he]
    exact ⟨rfl, rfl⟩
  · intro s now2 hs
    rw [(render_ok_state store tid reqJson now t s h hs).2]
    have h1 : lookupStore
        (storePut store tid { t with usage_count := t.usage_count + 1, modified_date := now }) tid
        = some { t with usage_count := t.usage_count + 1, modified_date := now } :=
      lookupStore_storePut_self store tid t _ h
    rw [(render_ok_state _ tid reqJson now2 _ s h1 hs).2]
    exact lookupStore_storePut_self _ tid _ _ h1

/-- Witness for C2: a concrete successful render bumps the usage count. -/
theorem render_usage_count_witness :
    lookupStore [(1, tGreet)] 1 = some tGreet
    ∧ jinjaRender tGreet.template ((some [("user", "Ada")]).getD []) = Except.ok "Hi Ada!"
    ∧ lookupStore (render_template_api [(1, tGreet)] 1 (some [("user", "Ada")]) 9).snd 1
        = some { tGreet with usage_count := tGreet.usage_count + 1, modified_date := 9 } :=
  ⟨rfl, rfl,
   (render_usage_count [(1, tGreet)] 1 (some [("user", "Ada")]) 9 tGreet rfl).1 "Hi Ada!" rfl⟩

/-- C3 counterexample: rendering with a mapping that contains a key the body
never references reports that key in `variables_used` as well — the handler
returns `list(variables.keys())`, not the set of names actually consumed. -/
theorem variables_used_extra_key_cex :
    extractVariables tGreet.template = ["user"]
    ∧ (render_template_api [(1, tGreet)] 1 (some [("user", "Ada"), ("extra", "zzz")]) 9).fst
        = ApiResult.success
            { rendered := "Hi Ada!"
              template_name := "Greeting"
              variables_used := ["user", "extra"] }
    ∧ (["user", "extra"] : List String) ≠ ["user"] :=
  ⟨rfl, rfl, by decide⟩

/-- C3 (amended): on success `variables_used` equals the list of keys of the
supplied mapping (extra keys are ignored by the substitution but still
reported); the end-to-end scenario holds as stated because there the mapping
carries exactly the consumed key. -/
theorem variables_used_spec :
    (∀ store tid reqJson now t r, lookupStore store tid = some t →
      (render_template_api store tid reqJson now).fst = ApiResult.success r →
      r.variables_used = (reqJson.getD []).map Prod.fst)
    ∧ (render_template_api (create_template [] greetingForm 1 1).snd 1
          (some [("user", "Ada")]) 9).fst
        = ApiResult.success
            { rendered := "Hi Ada!"
              template_name := "Greeting"
              variables_used := ["user"] } := by
  constructor
  · intro store tid reqJson now t r h hr
    cases hj : jinjaRender t.template (reqJson.getD []) with
    | error e =>
      rw [render_err_state store tid reqJson now t e h hj] at hr
      simp at hr
    | ok s =>
      rw [(render_ok_state store tid reqJson now t s h hj).1] at hr
      simp only [ApiResult.success.injEq] at hr
      rw [← hr]
  · rfl

/-- Witness for C3: the general part applied to a concrete successful
render whose mapping carries an extra key. -/
theorem variables_used_spec_witness :
    lookupStore [(1, tGreet)] 1 = some tGreet
    ∧ (render_template_api [(1, tGreet)] 1 (some [("user", "Ada"), ("extra", "zzz")]) 9).fst
        = ApiResult.success
            { rendered := "Hi Ada!"
              template_name := "Greeting"
              variables_used := ["user", "extra"] }
    ∧ ({ rendered := "Hi Ada!", template_name := "Greeting",
         variables_used := ["user", "extra"] : RenderOk }).variables_used
        = ((some [("user", "Ada"), ("extra", "zzz")]).getD []).map Prod.fst :=
  ⟨rfl, rfl,
   variables_used_spec.1 [(1, tGreet)] 1 (some [("user", "Ada"), ("extra", "zzz")]) 9 tGreet
     _ rfl rfl⟩

/-- C10 counterexample: a template whose body references a name missing from
the mapping can still fail: `tBad`'s body references `name` (per the
extractor) yet rendering with no JSON body raises a `TemplateSyntaxError`
(unterminated placeholder), so the API answers the 400 payload and the
record is unchanged — the claim's "never fails" is too strong. -/
theorem render_missing_var_failure_cex :
    extractVariables tBad.template = ["name"]
    ∧ (render_template_api [(1, tBad)] 1 none 5).fst
        = ApiResult.renderError "Template rendering error: unexpected end of template"
    ∧ (render_template_api [(1, tBad)] 1 none 5).snd = [(1, tBad)] :=
  ⟨rfl, rfl, rfl⟩

/-- C10 (amended): for an existing template whose body parses (no
`TemplateSyntaxError`), rendering never fails whatever the mapping — missing
names are substituted by Jinja2's default-undefined empty string, the call
answers a success payload, and `usage_count` is incremented; a request with
no JSON body is the empty mapping.  The concrete conjuncts exhibit the
empty-string substitution for a missing name. -/
theorem render_missing_vars_ok (store : Store) (tid : Nat)
    (reqJson : Option (List (String × String))) (now : Nat) (t : PromptTemplate)
    (h : lookupStore store tid = some t) (hp : templateParses t.template = true) :
    (∃ s, (render_template_api store tid reqJson now).fst
        = ApiResult.success
            { rendered := s
              template_name := t.name
              variables_used := (reqJson.getD []).map Prod.fst }
      ∧ lookupStore (render_template_api store tid reqJson now).snd tid
          = some { t with usage_count := t.usage_count + 1, modified_date := now })
    ∧ jinjaRender "Hi \x7b\x7buser\x7d\x7d!" [] = Except.ok "Hi !"
    ∧ jinjaRender "Hi \x7b\x7buser\x7d\x7d!" [("unrelated", "x")] = Except.ok "Hi !" := by
  refine ⟨?_, rfl, rfl⟩
  obtain ⟨s, hs⟩ := jinjaRender_ok_of_parses t.template (reqJson.getD []) hp
  obtain ⟨h1, h2⟩ := render_ok_state store tid reqJson now t s h hs
  refine ⟨s, h1, ?_⟩
  rw [h2]
  exact lookupStore_storePut_self store tid t _ h

/-- Witness for C10: rendering the Greeting template with no JSON body
(missing `user`) succeeds and increments the usage count. -/
theorem render_missing_vars_ok_witness :
    lookupStore [(1, tGreet)] 1 = some tGreet
    ∧ templateParses tGreet.template = true
    ∧ (∃ s, (render_template_api [(1, tGreet)] 1 none 7).fst
        = ApiResult.success
            { rendered := s
              template_name := tGreet.name
              variables_used := ((none : Option (List (String × String))).getD []).map Prod.fst }
      ∧ lookupStore (render_template_api [(1, tGreet)] 1 none 7).snd 1
          = some { tGreet with usage_count := tGreet.usage_count + 1, modified_date := 7 }) :=
  ⟨rfl, rfl, (render_missing_vars_ok [(1, tGreet)] 1 none 7 tGreet rfl rfl).1⟩

/-- C4: update on a missing id answers the 404 response and changes nothing;
update on an existing record overwrites name, description, body, category
and tags, recomputes `variables` from the new body, refreshes the modified
timestamp, and leaves `created_date` and `usage_count` exactly as they were. -/
theorem edit_frame (store : Store) (tid : Nat) (form : List (String × String)) (now : Nat) :
    (lookupStore store tid = none →
      edit_template store tid form now = (Response.notFound "Template not found", store))
    ∧ (∀ t f, lookupStore store tid = some t → readForm form = Except.ok f →
      (edit_template store tid form now).fst
          = Response.redirect ("/template/" ++ toString tid)
      ∧ lookupStore (edit_template store tid form now).snd tid = some
          { name := f.name
            description := f.description
            template := f.template
            category := f.category
            tags := parseTags f.tags
            varNames := extractVariables f.template
            created_date := t.created_date
            modified_date := now
            usage_count := t.usage_count }) := by
  constructor
  · intro h
    simp [edit_template, h]
  · intro t f h hf
    constructor
    · simp [edit_template, h, hf]
    · simp only [edit_template, h, hf]
      exact lookupStore_storePut_self store tid t _ h

/-- Witness for C4: a concrete edit rewrites the fields and keeps
`created_date = 1` and `usage_count = 4` of the stored Greeting record. -/
theorem edit_frame_witness :
    lookupStore [(1, tGreet)] 1 = some tGreet
    ∧ readForm editForm = Except.ok
        { name := "Farewell", description := "d", template := "Bye \x7b\x7bwho\x7d\x7d",
          category := "Misc", tags := "x, y" }
    ∧ ((edit_template [(1, tGreet)] 1 editForm 42).fst
          = Response.redirect ("/template/" ++ toString 1)
      ∧ lookupStore (edit_template [(1, tGreet)] 1 editForm 42).snd 1 = some
          { name := "Farewell"
            description := "d"
            template := "Bye \x7b\x7bwho\x7d\x7d"
            category := "Misc"
            tags := parseTags "x, y"
            varNames := extractVariables "Bye \x7b\x7bwho\x7d\x7d"
            created_date := tGreet.created_date
            modified_date := 42
            usage_count := tGreet.usage_count }) :=
  ⟨rfl, rfl,
   (edit_frame [(1, tGreet)] 1 editForm 42).2 tGreet
     { name := "Farewell", description := "d", template := "Bye \x7b\x7bwho\x7d\x7d",
       category := "Misc", tags := "x, y" } rfl rfl⟩

/-- C5: delete always answers the redirect (no error), after a delete the id
is gone, deleting an absent id changes nothing, a second delete of the same
id leaves the store exactly as after the first, and a Get (the detail page)
after the delete fails with the 404 "Template not found" response. -/
theorem delete_idempotent (store : Store) (tid : Nat) :
    (delete_template store tid).fst = Response.redirect "/"
    ∧ lookupStore (delete_template store tid).snd tid = none
    ∧ (lookupStore store tid = none → (delete_template store tid).snd = store)
    ∧ (delete_template (delete_template store tid).snd tid).snd
        = (delete_template store tid).snd
    ∧ view_template (delete_template store tid).snd tid
        = Response.notFound "Template not found" := by
  have hdel : lookupStore (delete_template store tid).snd tid = none := by
    unfold delete_template
    cases hl : lookupStore store tid with
    | none => simpa using hl
    | some t => simpa using lookupStore_storeDelete_self store tid
  refine ⟨?_, hdel, ?_, ?_, ?_⟩
  · unfold delete_template
    cases lookupStore store tid <;> rfl
  · intro h
    simp [delete_template, h]
  · have hnoop : ∀ st : Store, lookupStore st tid = none → (delete_template st tid).snd = st := by
      intro st hst
      simp [delete_template, hst]
    exact hnoop _ hdel
  · simp [view_template, hdel]

/-- Witness for C5: deleting from the empty store is a silent no-op. -/
theorem delete_idempotent_witness :
    lookupStore ([] : Store) 7 = none ∧ (delete_template ([] : Store) 7).snd = [] :=
  ⟨rfl, (delete_idempotent [] 7).2.2.1 rfl⟩

/-- C7 counterexample: the create handler performs no validation — submitting
an empty `name` and empty `template` body succeeds (redirect, no
ValidationError) and persists the record with the empty fields. -/
theorem create_accepts_empty_fields_cex :
    create_template [] emptyNameForm 3 1
      = (Response.redirect "/",
         [(1, { name := ""
                description := ""
                template := ""
                category := "General"
                tags := []
                varNames := []
                created_date := 3
                modified_date := 3
                usage_count := 0 })]) :=
  rfl

/-- C7 (amended): create never validates field contents — whenever all five
form fields are present, whatever their values (empty strings included), the
record is persisted as submitted; only a missing form field aborts, with the
framework's 400 error and no record written. -/
theorem create_no_validation (store : Store) (form : List (String × String)) (now newId : Nat) :
    (∀ f, readForm form = Except.ok f →
      create_template store form now newId
        = (Response.redirect "/",
           (newId,
            { name := f.name
              description := f.description
              template := f.template
              category := f.category
              tags := parseTags f.tags
              varNames := extractVariables f.template
              created_date := now
              modified_date := now
              usage_count := 0 }) :: store))
    ∧ (∀ e, readForm form = Except.error e →
      create_template store form now newId = (Response.badRequest e, store)) := by
  constructor
  · intro f hf
    simp [create_template, hf, applyCategoryDefault]
  · intro e he
    simp [create_template, he]

/-- Witness for C7: a form missing the `name` field aborts with the 400
framework error and persists nothing. -/
theorem create_no_validation_witness :
    readForm missingNameForm = Except.error "400 Bad Request: missing form field name"
    ∧ create_template [] missingNameForm 0 1
        = (Response.badRequest "400 Bad Request: missing form field name", []) :=
  ⟨rfl, (create_no_validation [] missingNameForm 0 1).2 _ rfl⟩

/-- C8 counterexample: creating with `category = ""` persists the empty
string, not "General" — the NDB default applies only to an unset value, and
the handler always assigns the submitted form value. -/
theorem empty_category_persists_cex :
    lookupStore (create_template [] emptyCategoryForm 2 1).snd 1
      = some { name := "N"
               description := ""
               template := "t"
               category := ""
               tags := []
               varNames := []
               created_date := 2
               modified_date := 2
               usage_count := 0 }
    ∧ ("" : String) ≠ "General" :=
  ⟨rfl, by decide⟩

/-- C8 (amended): the "General" default fires only when the category value is
unset at the model layer (`applyCategoryDefault none`); the create handler
always assigns the submitted value, so a present-but-empty category field is
persisted as the empty string. -/
theorem category_default_only_when_unset :
    applyCategoryDefault none = "General"
    ∧ (∀ c : String, applyCategoryDefault (some c) = c)
    ∧ (∀ store form now newId f, readForm form = Except.ok f → f.category = "" →
      ∃ t : PromptTemplate,
        create_template store form now newId = (Response.redirect "/", (newId, t) :: store)
        ∧ t.category = "") := by
  refine ⟨rfl, fun c => rfl, ?_⟩
  intro store form now newId f hf hc
  refine ⟨{ name := f.name
            description := f.description
            template := f.template
            category := applyCategoryDefault (some f.category)
            tags := parseTags f.tags
            varNames := extractVariables f.template
            created_date := now
            modified_date := now
            usage_count := 0 }, ?_, ?_⟩
  · simp [create_template, hf]
  · simpa [applyCategoryDefault] using hc

/-- Witness for C8: the concrete empty-category create. -/
theorem category_default_witness :
    applyCategoryDefault none = "General"
    ∧ readForm emptyCategoryForm = Except.ok
        { name := "N", description := "", template := "t", category := "", tags := "" }
    ∧ ∃ t : PromptTemplate,
        create_template [] emptyCategoryForm 2 1 = (Response.redirect "/", (1, t) :: [])
        ∧ t.category = "" :=
  ⟨category_default_only_when_unset.1, rfl,
   category_default_only_when_unset.2.2 [] emptyCategoryForm 2 1
     { name := "N", description := "", template := "t", category := "", tags := "" } rfl rfl⟩

/-- C9 counterexample: tag parsing does not trim — `"a, b"` yields
`["a", " b"]`, keeping the leading space, not `["a", "b"]`. -/
theorem tags_not_trimmed_cex :
    parseTags "a, b" = ["a", " b"] ∧ (["a", " b"] : List String) ≠ ["a", "b"] :=
  ⟨rfl, by decide⟩

/-- C9 (amended): the tags input is split on every comma into a sequence
with no trimming of surrounding whitespace (and empty segments kept); only
the empty input yields the empty sequence. -/
theorem parse_tags_spec :
    parseTags "" = []
    ∧ parseTags "a,b" = ["a", "b"]
    ∧ parseTags "a, b" = ["a", " b"]
    ∧ parseTags " x ,y," = [" x ", "y", ""] :=
  ⟨rfl, rfl, rfl, rfl⟩

theorem lowerStr_eq_empty_iff (s : String) : lowerStr s = "" ↔ s = "" := by
  constructor
  · intro h
    unfold lowerStr at h
    have hd : s.toList.map Char.toLower = [] := by
      have h2 := congrArg String.data h
      simpa using h2
    have hnil : s.toList = [] := List.map_eq_nil_iff.mp hd
    cases s with
    | mk data =>
      simp only [String.toList] at hnil
      simp [hnil]
  · intro h
    subst h
    rfl

theorem lowerStr_beq_empty (s : String) : (lowerStr s == "") = (s == "") := by
  by_cases h : s = ""
  · subst h; rfl
  · have h2 : lowerStr s ≠ "" := fun hh => h ((lowerStr_eq_empty_iff s).mp hh)
    simp [beq_iff_eq, h, h2]

theorem search_pred_eq (q tag : String) (e : Nat × PromptTemplate) :
    (!(lowerStr q != "" && !strContains (lowerStr e.snd.name) (lowerStr q)
        && !strContains (lowerStr e.snd.description) (lowerStr q))
      && !(tag != "" && !(e.snd.tags.contains tag)))
    = ((q == "" || strContains (lowerStr e.snd.name) (lowerStr q)
          || strContains (lowerStr e.snd.description) (lowerStr q))
        && (tag == "" || e.snd.tags.contains tag)) := by
  have hq0 : (lowerStr q != "") = (q != "") := by
    rw [bne, bne, lowerStr_beq_empty]
  rw [hq0]
  cases hq : (q == "") <;> cases hg : (tag == "") <;>
    cases hA : strContains (lowerStr e.snd.name) (lowerStr q) <;>
    cases hB : strContains (lowerStr e.snd.description) (lowerStr q) <;>
    cases hC : e.snd.tags.contains tag <;>
      simp [bne, hq, hg, hA, hB, hC]

/-- C6: for every store and every combination of parameters, the search API
returns exactly (and in store order) the summaries of the records satisfying
the spec-side predicate — `q` (when supplied) a case-insensitive substring
of name or description, `category` (when supplied) an exact match, `tag`
(when supplied) an element of the record's tags — together with the three
concrete scenario queries. -/
theorem search_filter_characterization :
    (∀ (store : Store) (q category tag : String),
      search_templates store q category tag
        = (store.filter (fun e => matchesSearch q category tag e.snd)).map
            (fun e => mkSearchResult e.fst e.snd))
    ∧ search_templates demoStore "welcome" "" "" = [mkSearchResult 1 tWelcome]
    ∧ search_templates demoStore "" "Ops" "" = [mkSearchResult 2 tAlert]
    ∧ search_templates demoStore "" "" "alert" = [mkSearchResult 2 tAlert] := by
  refine ⟨?_, rfl, rfl, rfl⟩
  intro store q category tag
  unfold search_templates
  dsimp only
  by_cases hc : category = ""
  · subst hc
    rw [if_neg (by simp)]
    congr 1
    refine List.filter_congr ?_
    intro e he
    rw [search_pred_eq]
    simp [matchesSearch]
  · rw [if_pos hc]
    rw [List.filter_filter]
    congr 1
    refine List.filter_congr ?_
    intro e he
    rw [search_pred_eq]
    have hcb : (category == "") = false := by simp [beq_iff_eq, hc]
    simp only [matchesSearch]
    cases hq2 : (q == "") <;>
      cases hA : strContains (lowerStr e.snd.name) (lowerStr q) <;>
      cases hB : strContains (lowerStr e.snd.description) (lowerStr q) <;>
      cases hg2 : (tag == "") <;>
      cases hC : e.snd.tags.contains tag <;>
      cases hCat : (e.snd.category == category) <;>
        simp only [hcb, hq2, hA, hB, hg2, hC, hCat] <;> rfl

end PromptApp
